import Mathlib

/-!
Verification development for the pty-backed process session manager of
SCRIPT_LAUNCHER.py (class InteractiveTerminal).  The session state and the
four session operations (run_command, send_input, read_pty, stop_process)
are embedded as pure Lean functions.  OS-level nondeterminism (the result
of pty.openpty, subprocess.Popen, process.poll, select.select, os.read,
os.write, os.killpg) is supplied by explicit environment records, and every
externally observable effect (widget appends, signal emissions, fd system
calls, timer control) is recorded in an ordered event trace.
-/

namespace ScriptLauncher

/-- A spawned child process: its pid and the process group id that
os.getpgid(pid) reports (the child is a session leader via os.setsid). -/
structure Proc where
  pid : Nat
  pgid : Nat
deriving DecidableEq

/-- The mutable fields of InteractiveTerminal that the session logic touches:
self.process, self.master_fd, self.slave_fd, self.is_running, and whether
self.timer is active. -/
structure TermState where
  process : Option Proc
  master_fd : Option Nat
  slave_fd : Option Nat
  is_running : Bool
  timer_active : Bool
deriving DecidableEq

/-- State after __init__: process None, both fds None, not running, timer idle. -/
def initState : TermState :=
  { process := none, master_fd := none, slave_fd := none,
    is_running := false, timer_active := false }

/-- Observable effects, in program order. -/
inductive Event where
  | clearTerminal
  | appendText (text : String) (isError : Bool)
  | emitFinished
  | openPty (master slave : Nat)
  | setNonBlocking (fd : Nat)
  | clearEcho (fd : Nat)
  | spawnProc (argv : List String) (cwd : Option String)
  | timerStart (intervalMs : Nat)
  | timerStop
  | selectCheck (fd : Nat) (timeoutMs : Nat)
  | readFd (fd : Nat) (maxBytes : Nat)
  | writeFd (fd : Nat) (data : String)
  | killGroup (pgid : Nat)
  | closeFd (fd : Nat)
deriving DecidableEq

/-- Environment for stop_process: childAlive is true when process.poll()
returns None (child still running); killRaised is true when
os.killpg/os.getpgid raised OSError or ProcessLookupError.  The except
clause in the source discards that error (pass), so killRaised influences
nothing downstream. -/
structure StopEnv where
  childAlive : Bool
  killRaised : Bool
deriving DecidableEq

/-- stop_process: sets is_running False, stops the timer, signals the process
group when the child is still alive (ignoring process-already-gone errors),
drops the process handle, closes whichever descriptors are open and clears
them to None, and finally emits processFinished. -/
def stop_process (env : StopEnv) (s : TermState) : TermState × List Event :=
  let killEvents : List Event :=
    match s.process with
    | some p => if env.childAlive then [Event.killGroup p.pgid] else []
    | none => []
  let closeMaster : List Event :=
    match s.master_fd with
    | some m => [Event.closeFd m]
    | none => []
  let closeSlave : List Event :=
    match s.slave_fd with
    | some sl => [Event.closeFd sl]
    | none => []
  ({ process := none, master_fd := none, slave_fd := none,
     is_running := false, timer_active := false },
   Event.timerStop :: (killEvents ++ closeMaster ++ closeSlave ++ [Event.emitFinished]))

/-- The command line printed by run_command:
command plus the space-joined arguments when any are given. -/
def cmdString (command : String) (args : List String) : String :=
  if args.isEmpty then command
  else command ++ " " ++ String.intercalate " " args

/-- Environment for run_command: stopEnv drives the embedded stop_process of
any previous session; alloc is the result of pty.openpty (none = raised);
spawnRes is the result of subprocess.Popen (none = raised); errMsg is str(e)
of the caught exception when one is raised. -/
structure RunEnv where
  stopEnv : StopEnv
  alloc : Option (Nat × Nat)
  spawnRes : Option Proc
  errMsg : String
deriving DecidableEq

/-- run_command: clears the terminal, prints the command line, stops any
existing process, then under try: allocates the pty pair, makes the master
non-blocking, clears ECHO on the slave, sets is_running True, spawns the
child in its own process group, and starts the 50 ms poll timer.  On any
exception the except clause appends an error message, sets is_running
False, and emits processFinished; it closes nothing. -/
def run_command (env : RunEnv) (s : TermState) (command : String)
    (args : List String) (cwd : Option String) : TermState × List Event :=
  let header : List Event :=
    [Event.clearTerminal,
     Event.appendText ("$ " ++ cmdString command args ++ "\n") false]
  let stopped := stop_process env.stopEnv s
  let s1 := stopped.1
  match env.alloc with
  | none =>
      ({ s1 with is_running := false },
       header ++ stopped.2 ++
         [Event.appendText ("Error starting process: " ++ env.errMsg ++ "\n") false,
          Event.emitFinished])
  | some (m, sl) =>
      let s2 := { s1 with master_fd := some m, slave_fd := some sl }
      let allocEvents : List Event :=
        [Event.openPty m sl, Event.setNonBlocking m, Event.clearEcho sl]
      match env.spawnRes with
      | none =>
          ({ s2 with is_running := false },
           header ++ stopped.2 ++ allocEvents ++
             [Event.appendText ("Error starting process: " ++ env.errMsg ++ "\n") false,
              Event.emitFinished])
      | some p =>
          ({ s2 with process := some p, is_running := true, timer_active := true },
           header ++ stopped.2 ++ allocEvents ++
             [Event.spawnProc (command :: args) cwd, Event.timerStart 50])

/-- Environment for send_input: writeError is some str(e) when os.write
raised OSError. -/
structure WriteEnv where
  writeError : Option String
deriving DecidableEq

/-- send_input: returns immediately when not running, the master fd is None,
or the text is empty; otherwise echoes the line to the display, writes
line plus newline to the master fd, and on OSError appends a plain error
message.  The state is never modified. -/
def send_input (env : WriteEnv) (s : TermState) (text : String) :
    TermState × List Event :=
  if s.is_running = false ∨ s.master_fd = none then (s, [])
  else if text = "" then (s, [])
  else
    match s.master_fd with
    | none => (s, [])
    | some m =>
      let echo := Event.appendText (text ++ "\n") false
      let wr := Event.writeFd m (text ++ "\n")
      match env.writeError with
      | none => (s, [echo, wr])
      | some e =>
          (s, [echo, wr,
               Event.appendText ("Error sending input: " ++ e ++ "\n") false])

/-- The Unicode replacement character U+FFFD. -/
def replacementChar : Char := Char.ofNat 0xFFFD

/-- A UTF-8 continuation byte: 0x80 to 0xBF. -/
def isCont (b : Nat) : Bool := decide (0x80 ≤ b ∧ b < 0xC0)

/-- Allowed first continuation byte of a three-byte sequence (excludes
overlong encodings for lead 0xE0 and surrogates for lead 0xED). -/
def isCont3First (b c1 : Nat) : Bool :=
  if b = 0xE0 then decide (0xA0 ≤ c1 ∧ c1 < 0xC0)
  else if b = 0xED then decide (0x80 ≤ c1 ∧ c1 < 0xA0)
  else isCont c1

/-- Allowed first continuation byte of a four-byte sequence (excludes
overlong encodings for lead 0xF0 and values above U+10FFFF for lead 0xF4). -/
def isCont4First (b c1 : Nat) : Bool :=
  if b = 0xF0 then decide (0x90 ≤ c1 ∧ c1 < 0xC0)
  else if b = 0xF4 then decide (0x80 ≤ c1 ∧ c1 < 0x90)
  else isCont c1

/-- Decode one scalar value from lead byte b and remaining bytes, following
the replacement policy of bytes.decode with errors equal to replace: an
invalid maximal subpart yields one U+FFFD and decoding resumes at the first
byte not part of it. Returns the decoded character and the unconsumed rest. -/
def utf8Step (b : Nat) (rest : List Nat) : Char × List Nat :=
  if b < 0x80 then (Char.ofNat b, rest)
  else if b < 0xC2 then (replacementChar, rest)
  else if b < 0xE0 then
    match rest with
    | [] => (replacementChar, [])
    | c1 :: rest2 =>
        if isCont c1 then
          (Char.ofNat (0x40 * (b - 0xC0) + (c1 - 0x80)), rest2)
        else (replacementChar, c1 :: rest2)
  else if b < 0xF0 then
    match rest with
    | [] => (replacementChar, [])
    | [c1] =>
        if isCont3First b c1 then (replacementChar, [])
        else (replacementChar, [c1])
    | c1 :: c2 :: rest3 =>
        if isCont3First b c1 then
          if isCont c2 then
            (Char.ofNat (0x1000 * (b - 0xE0) + 0x40 * (c1 - 0x80) + (c2 - 0x80)),
             rest3)
          else (replacementChar, c2 :: rest3)
        else (replacementChar, c1 :: c2 :: rest3)
  else if b < 0xF5 then
    match rest with
    | [] => (replacementChar, [])
    | [c1] =>
        if isCont4First b c1 then (replacementChar, [])
        else (replacementChar, [c1])
    | [c1, c2] =>
        if isCont4First b c1 then
          if isCont c2 then (replacementChar, [])
          else (replacementChar, [c2])
        else (replacementChar, [c1, c2])
    | c1 :: c2 :: c3 :: rest4 =>
        if isCont4First b c1 then
          if isCont c2 then
            if isCont c3 then
              (Char.ofNat (0x40000 * (b - 0xF0) + 0x1000 * (c1 - 0x80) +
                           0x40 * (c2 - 0x80) + (c3 - 0x80)),
               rest4)
            else (replacementChar, c3 :: rest4)
          else (replacementChar, c2 :: c3 :: rest4)
        else (replacementChar, c1 :: c2 :: c3 :: rest4)
  else (replacementChar, rest)

/-- Decoding loop.  Each utf8Step consumes at least the lead byte, so fuel
equal to the byte count always suffices. -/
def decodeLoop : Nat → List Nat → List Char
  | 0, _ => []
  | _, [] => []
  | fuel + 1, b :: rest =>
      let step := utf8Step b rest
      step.1 :: decodeLoop fuel step.2

/-- data.decode with utf-8 and errors replace: total, never raises. -/
def decodeUtf8Replace (l : List Nat) : List Char := decodeLoop l.length l

/-- String form of the replacement decode. -/
def decodeString (l : List Nat) : String := String.mk (decodeUtf8Replace l)

/-- Result of the os.read call inside read_pty: either the pending byte
stream of the master fd (os.read returns its first 1024 bytes, possibly
none at EOF), or an OSError with errno and message. -/
inductive ReadOutcome where
  | bytes (pending : List Nat)
  | ioError (errno : Nat) (msg : String)
deriving DecidableEq

/-- Environment for one read_pty tick: pollResult is process.poll()
(some code when the child has exited); ready is whether select reports the
master fd readable; outcome drives os.read; stopEnv drives any embedded
stop_process call. -/
structure ReadEnv where
  pollResult : Option Int
  ready : Bool
  outcome : ReadOutcome
  stopEnv : StopEnv
deriving DecidableEq

/-- The bounded chunk size passed to os.read. -/
def chunkSize : Nat := 1024

/-- read_pty, one timer tick: stops the timer and returns when not running
or the master fd is None; reports the exit code and stops when poll shows
the child exited; otherwise selects with timeout 0 on the master fd, and if
ready reads up to 1024 bytes: nonempty data is decoded with replacement and
appended, empty data is EOF and stops, errno 5 stops silently, any other
OSError is reported and stops. -/
def read_pty (env : ReadEnv) (s : TermState) : TermState × List Event :=
  if s.is_running = false ∨ s.master_fd = none then
    ({ s with timer_active := false }, [Event.timerStop])
  else
    match s.master_fd with
    | none => ({ s with timer_active := false }, [Event.timerStop])
    | some m =>
      match s.process, env.pollResult with
      | some _, some code =>
          let stopped := stop_process env.stopEnv s
          (stopped.1,
           Event.appendText ("\nProcess exited with code " ++ toString code ++ "\n")
               false :: stopped.2)
      | _, _ =>
        let sel := Event.selectCheck m 0
        if env.ready = false then (s, [sel])
        else
          let rd := Event.readFd m chunkSize
          match env.outcome with
          | ReadOutcome.bytes pending =>
              let data := pending.take chunkSize
              if data.isEmpty then
                let stopped := stop_process env.stopEnv s
                (stopped.1, sel :: rd :: stopped.2)
              else
                (s, [sel, rd, Event.appendText (decodeString data) false])
          | ReadOutcome.ioError errno msg =>
              if errno = 5 then
                let stopped := stop_process env.stopEnv s
                (stopped.1, sel :: rd :: stopped.2)
              else
                let stopped := stop_process env.stopEnv s
                (stopped.1,
                 sel :: rd ::
                   Event.appendText ("PTY error: " ++ msg ++ "\n") false :: stopped.2)

/-- True exactly on processFinished emissions. -/
def isEmit : Event → Bool
  | Event.emitFinished => true
  | _ => false

/-- Number of processFinished emissions in a trace. -/
def countEmits (evs : List Event) : Nat := evs.countP isEmit

/-- The descriptors closed by a trace, in order. -/
def closedFds (evs : List Event) : List Nat :=
  evs.filterMap fun e =>
    match e with
    | Event.closeFd f => some f
    | _ => none

/-- The process groups signalled by a trace, in order. -/
def killTargets (evs : List Event) : List Nat :=
  evs.filterMap fun e =>
    match e with
    | Event.killGroup g => some g
    | _ => none

/-- True exactly on error-flagged display appends. -/
def isErrorAppend : Event → Bool
  | Event.appendText _ true => true
  | _ => false

/-- True exactly on appends of the given text. -/
def isAppendOf (txt : String) : Event → Bool
  | Event.appendText t _ => t == txt
  | _ => false

/-- True exactly on read system calls. -/
def isReadEvent : Event → Bool
  | Event.readFd _ _ => true
  | _ => false

/-- True exactly on select readiness checks. -/
def isSelectEvent : Event → Bool
  | Event.selectCheck _ _ => true
  | _ => false

/-- A stop environment where the child is already gone and nothing raised. -/
def quietStop : StopEnv := { childAlive := false, killRaised := false }

/-- A representative running session: child pid 100 in group 100, master fd 3,
slave fd 4, timer active. -/
def runningState : TermState :=
  { process := some { pid := 100, pgid := 100 }, master_fd := some 3,
    slave_fd := some 4, is_running := true, timer_active := true }

/-- run_command environment where pty.openpty returns (3, 4) and
subprocess.Popen raises FileNotFoundError. -/
def spawnFailEnv : RunEnv :=
  { stopEnv := quietStop, alloc := some (3, 4), spawnRes := none,
    errMsg := "No such file or directory" }

/-- read_pty environment for a tick on which process.poll() reports exit
code 0. -/
def pollExitEnv : ReadEnv :=
  { pollResult := some 0, ready := false, outcome := ReadOutcome.bytes [],
    stopEnv := quietStop }

/-- read_pty environment for a tick on which the child is still alive, the
master fd is ready, and os.read yields bytes 0x68 0xFF 0x69 (the middle byte
is not valid UTF-8). -/
def binaryDataEnv : ReadEnv :=
  { pollResult := none, ready := true,
    outcome := ReadOutcome.bytes [0x68, 0xFF, 0x69], stopEnv := quietStop }

/-- run_command environment where allocation yields (5, 6) and the spawn
succeeds with child pid 42 in group 42. -/
def spawnOkEnv : RunEnv :=
  { stopEnv := quietStop, alloc := some (5, 6),
    spawnRes := some { pid := 42, pgid := 42 }, errMsg := "" }

/-- run_command environment used while a previous child (group 100) is still
alive: the embedded stop_process finds it running, allocation yields (7, 8),
and the new spawn succeeds with pid 43 in group 43. -/
def restartEnv : RunEnv :=
  { stopEnv := { childAlive := true, killRaised := false },
    alloc := some (7, 8), spawnRes := some { pid := 43, pgid := 43 },
    errMsg := "" }

/-! ## Helper lemmas about the stop_process trace -/

theorem stop_emits_once (env : StopEnv) (s : TermState) :
    countEmits (stop_process env s).2 = 1 := by
  obtain ⟨p, m, sl, r, t⟩ := s
  obtain ⟨a, k⟩ := env
  cases p <;> cases m <;> cases sl <;> cases a <;>
    simp [stop_process, countEmits, isEmit]

theorem stop_no_read_no_select (env : StopEnv) (s : TermState) :
    (stop_process env s).2.countP isReadEvent = 0 ∧
    (stop_process env s).2.countP isSelectEvent = 0 := by
  obtain ⟨p, m, sl, r, t⟩ := s
  obtain ⟨a, k⟩ := env
  cases p <;> cases m <;> cases sl <;> cases a <;>
    simp [stop_process, isReadEvent, isSelectEvent]

theorem stop_closedFds (env : StopEnv) (s : TermState) :
    closedFds (stop_process env s).2 = s.master_fd.toList ++ s.slave_fd.toList := by
  obtain ⟨p, m, sl, r, t⟩ := s
  obtain ⟨a, k⟩ := env
  cases p <;> cases m <;> cases sl <;> cases a <;>
    simp [stop_process, closedFds]

theorem stop_killTargets_alive (env : StopEnv) (s : TermState) (p : Proc)
    (hp : s.process = some p) (ha : env.childAlive = true) :
    killTargets (stop_process env s).2 = [p.pgid] := by
  obtain ⟨q, m, sl, r, t⟩ := s
  obtain ⟨a, k⟩ := env
  simp only at hp ha
  subst hp
  subst ha
  cases m <;> cases sl <;> simp [stop_process, killTargets]

/-! ## Claim theorems -/

/-- C1: the claim says a spawn failure after pty allocation leaves the same
post-state as stop_process, with both descriptors closed and cleared.  The
code does not: the except clause of run_command only clears is_running and
emits processFinished, so after a failed Popen the state still holds
master fd 3 and slave fd 4, no close event was issued, while stop_process
from the same start state clears both descriptors to None.  This theorem
evaluates the code at that failing input and exhibits the divergence. -/
theorem c1_spawn_failure_leaves_descriptors_open :
    (run_command spawnFailEnv initState "/bad/python" ["script.py"] (some "/work")).1 =
      { process := none, master_fd := some 3, slave_fd := some 4,
        is_running := false, timer_active := false } ∧
    closedFds (run_command spawnFailEnv initState "/bad/python" ["script.py"]
        (some "/work")).2 = [] ∧
    (stop_process quietStop initState).1.master_fd = none ∧
    (stop_process quietStop initState).1.slave_fd = none := by
  refine ⟨rfl, ?_, rfl, rfl⟩
  decide

/-- C2 counterexample: the claim says the completion observer is notified at
most once per lifecycle no matter how many times stop is invoked.  Two
consecutive stop_process calls on a running session emit processFinished
twice, because stop_process emits unconditionally on every call. -/
theorem c2_double_stop_notifies_twice :
    countEmits ((stop_process quietStop runningState).2 ++
        (stop_process quietStop (stop_process quietStop runningState).1).2) = 2 := by
  decide

/-- C2 amended: every single invocation of stop_process notifies the
completion observer exactly once; hence a lifecycle sees one notification
per stop call (including the defensive stop at the top of run_command),
never zero, but more than once when stop is invoked repeatedly. -/
theorem c2_each_stop_notifies_exactly_once (env : StopEnv) (s : TermState) :
    countEmits (stop_process env s).2 = 1 :=
  stop_emits_once env s

/-- C3: after stop_process returns, both descriptors are None and the running
flag is false; the first call closes exactly the descriptors that were open
(each once, in order master then slave), and a second call closes nothing. -/
theorem c3_stop_idempotent_cleanup (env1 env2 : StopEnv) (s : TermState) :
    (stop_process env1 s).1.master_fd = none ∧
    (stop_process env1 s).1.slave_fd = none ∧
    (stop_process env1 s).1.is_running = false ∧
    closedFds (stop_process env1 s).2 = s.master_fd.toList ++ s.slave_fd.toList ∧
    closedFds (stop_process env2 (stop_process env1 s).1).2 = [] :=
  ⟨rfl, rfl, rfl, stop_closedFds env1 s, rfl⟩

/-- C4 counterexample: the claim says a failed write is reported to the
Display Sink as error-flagged text.  The code reports it through append,
which forwards to append_text with the error flag at its default False, so
the trace holds the error message with isError false and no error-flagged
append at all. -/
theorem c4_write_error_reported_unflagged :
    (send_input ⟨some "EPIPE"⟩ runningState "hi").2.countP
        (isAppendOf "Error sending input: EPIPE\n") = 1 ∧
    (send_input ⟨some "EPIPE"⟩ runningState "hi").2.countP isErrorAppend = 0 := by
  constructor <;> decide

/-- C4 amended: when the write to the master fd fails, the failure is
reported to the Display Sink as plain (non-error-flagged) text, and the
session is not terminated by the failure itself: the state is unchanged, so
the running flag stays true and the descriptors stay open, and the trace
holds no stop effects (no close, no kill, no processFinished). -/
theorem c4_write_error_nonfatal (e : String) (s : TermState) (text : String)
    (m : Nat) (hrun : s.is_running = true) (hm : s.master_fd = some m)
    (ht : ¬ text = "") :
    (send_input ⟨some e⟩ s text).1 = s ∧
    (send_input ⟨some e⟩ s text).2 =
      [Event.appendText (text ++ "\n") false,
       Event.writeFd m (text ++ "\n"),
       Event.appendText ("Error sending input: " ++ e ++ "\n") false] := by
  constructor <;> simp [send_input, hrun, hm, ht]

/-- C4 witness: the amended statement applied to a concrete failing write. -/
theorem c4_write_error_nonfatal_witness :
    runningState.is_running = true ∧ runningState.master_fd = some 3 ∧
    ¬ "ping" = "" ∧
    ((send_input ⟨some "EPIPE"⟩ runningState "ping").1 = runningState ∧
     (send_input ⟨some "EPIPE"⟩ runningState "ping").2 =
       [Event.appendText ("ping" ++ "\n") false,
        Event.writeFd 3 ("ping" ++ "\n"),
        Event.appendText ("Error sending input: " ++ "EPIPE" ++ "\n") false]) :=
  ⟨rfl, rfl, by decide,
   c4_write_error_nonfatal "EPIPE" runningState "ping" 3 rfl rfl (by decide)⟩

/-- C5: on a tick of a running session, the exit status is checked first:
when poll reports an exit code, the code is reported to the Display Sink and
stop_process runs, with no read and no select anywhere in the tick trace;
when poll reports the child alive, the tick proceeds to a readiness check on
the master descriptor with timeout 0 before anything else. -/
theorem c5_poll_checked_before_read (env : ReadEnv) (s : TermState) (p : Proc)
    (m : Nat) (code : Int) (hrun : s.is_running = true)
    (hm : s.master_fd = some m) (hp : s.process = some p) :
    (env.pollResult = some code →
      (read_pty env s).2 =
        Event.appendText ("\nProcess exited with code " ++ toString code ++ "\n")
            false :: (stop_process env.stopEnv s).2 ∧
      (read_pty env s).1 = (stop_process env.stopEnv s).1 ∧
      (read_pty env s).2.countP isReadEvent = 0 ∧
      (read_pty env s).2.countP isSelectEvent = 0) ∧
    (env.pollResult = none →
      (read_pty env s).2.head? = some (Event.selectCheck m 0)) := by
  constructor
  · intro hpoll
    have htrace : (read_pty env s).2 =
        Event.appendText ("\nProcess exited with code " ++ toString code ++ "\n")
            false :: (stop_process env.stopEnv s).2 := by
      simp [read_pty, hrun, hm, hp, hpoll]
    refine ⟨htrace, ?_, ?_, ?_⟩
    · simp [read_pty, hrun, hm, hp, hpoll]
    · rw [htrace]
      simp [isReadEvent, (stop_no_read_no_select env.stopEnv s).1]
    · rw [htrace]
      simp [isSelectEvent, (stop_no_read_no_select env.stopEnv s).2]
  · intro hpoll
    rcases henv : env.ready with _ | _ <;>
    rcases hout : env.outcome with pending | ⟨errno, msg⟩ <;>
      simp [read_pty, hrun, hm, hp, hpoll, henv, hout] <;>
      split <;> simp

/-- C5 witness: the theorem applied to the representative running session on
a tick where poll reports exit code 0. -/
theorem c5_poll_checked_before_read_witness :
    runningState.is_running = true ∧ runningState.master_fd = some 3 ∧
    runningState.process = some { pid := 100, pgid := 100 } ∧
    ((pollExitEnv.pollResult = some 0 →
      (read_pty pollExitEnv runningState).2 =
        Event.appendText ("\nProcess exited with code " ++ toString (0 : Int) ++ "\n")
            false :: (stop_process pollExitEnv.stopEnv runningState).2 ∧
      (read_pty pollExitEnv runningState).1 =
        (stop_process pollExitEnv.stopEnv runningState).1 ∧
      (read_pty pollExitEnv runningState).2.countP isReadEvent = 0 ∧
      (read_pty pollExitEnv runningState).2.countP isSelectEvent = 0) ∧
    (pollExitEnv.pollResult = none →
      (read_pty pollExitEnv runningState).2.head? =
        some (Event.selectCheck 3 0))) :=
  ⟨rfl, rfl, rfl,
   c5_poll_checked_before_read pollExitEnv runningState
     { pid := 100, pgid := 100 } 3 0 rfl rfl rfl⟩

/-- C6: on a ready tick of a running session the read is bounded by 1024
bytes; nonempty data is decoded by the total replacement decoder (invalid
byte sequences become U+FFFD, never an exception) and appended, with the
session state untouched so polling continues; a zero-byte read invokes
stop_process, clearing the running flag and both descriptors. -/
theorem c6_bounded_read_replace_decode_eof (env : ReadEnv) (s : TermState)
    (m : Nat) (pending : List Nat) (hrun : s.is_running = true)
    (hm : s.master_fd = some m) (hpoll : env.pollResult = none)
    (hready : env.ready = true) (hout : env.outcome = ReadOutcome.bytes pending) :
    (pending.take chunkSize).length ≤ 1024 ∧
    (¬ pending = [] →
      (read_pty env s).2 =
        [Event.selectCheck m 0, Event.readFd m chunkSize,
         Event.appendText (decodeString (pending.take chunkSize)) false] ∧
      (read_pty env s).1 = s) ∧
    (pending = [] →
      (read_pty env s).1.is_running = false ∧
      (read_pty env s).1.master_fd = none ∧
      (read_pty env s).1.slave_fd = none ∧
      (read_pty env s).2 =
        Event.selectCheck m 0 :: Event.readFd m chunkSize ::
          (stop_process env.stopEnv s).2) ∧
    decodeUtf8Replace [0x68, 0xFF, 0x69] =
      [Char.ofNat 0x68, replacementChar, Char.ofNat 0x69] := by
  refine ⟨?_, ?_, ?_, by decide⟩
  · calc (pending.take chunkSize).length ≤ chunkSize := List.length_take_le _ _
      _ ≤ 1024 := le_refl _
  · intro hne
    have hdata : (pending.take chunkSize).isEmpty = false := by
      cases pending with
      | nil => exact absurd rfl hne
      | cons b r => simp [chunkSize]
    cases hproc : s.process <;>
      simp [read_pty, hrun, hm, hpoll, hready, hout, hproc, hdata]
  · intro hnil
    subst hnil
    cases hproc : s.process <;>
      simp [read_pty, hrun, hm, hpoll, hready, hout, hproc, stop_process]

/-- C6 witness: the theorem applied to a ready tick delivering the bytes
0x68 0xFF 0x69, whose middle byte is invalid UTF-8. -/
theorem c6_bounded_read_replace_decode_eof_witness :
    runningState.is_running = true ∧ runningState.master_fd = some 3 ∧
    binaryDataEnv.pollResult = none ∧ binaryDataEnv.ready = true ∧
    binaryDataEnv.outcome = ReadOutcome.bytes [0x68, 0xFF, 0x69] ∧
    (([0x68, 0xFF, 0x69].take chunkSize).length ≤ 1024 ∧
    (¬ [0x68, 0xFF, 0x69] = ([] : List Nat) →
      (read_pty binaryDataEnv runningState).2 =
        [Event.selectCheck 3 0, Event.readFd 3 chunkSize,
         Event.appendText (decodeString ([0x68, 0xFF, 0x69].take chunkSize)) false] ∧
      (read_pty binaryDataEnv runningState).1 = runningState) ∧
    ([0x68, 0xFF, 0x69] = ([] : List Nat) →
      (read_pty binaryDataEnv runningState).1.is_running = false ∧
      (read_pty binaryDataEnv runningState).1.master_fd = none ∧
      (read_pty binaryDataEnv runningState).1.slave_fd = none ∧
      (read_pty binaryDataEnv runningState).2 =
        Event.selectCheck 3 0 :: Event.readFd 3 chunkSize ::
          (stop_process binaryDataEnv.stopEnv runningState).2) ∧
    decodeUtf8Replace [0x68, 0xFF, 0x69] =
      [Char.ofNat 0x68, replacementChar, Char.ofNat 0x69]) :=
  ⟨rfl, rfl, rfl, rfl, rfl,
   c6_bounded_read_replace_decode_eof binaryDataEnv runningState 3
     [0x68, 0xFF, 0x69] rfl rfl rfl rfl rfl⟩

/-- C7: send_input is a no-op when the session is not running, when the
master descriptor is cleared, or when the text is empty: the state is
unchanged and the trace is empty, so nothing reaches the Display Sink and
nothing is written to the master descriptor. -/
theorem c7_send_input_guard_noop (env : WriteEnv) (s : TermState) (text : String)
    (h : s.is_running = false ∨ s.master_fd = none ∨ text = "") :
    send_input env s text = (s, []) := by
  unfold send_input
  rcases h with h | h | h
  · simp [h]
  · simp [h]
  · by_cases hc : s.is_running = false ∨ s.master_fd = none
    · simp [hc]
    · simp [hc, h]

/-- C7 witness: send_input on the freshly constructed widget is a no-op. -/
theorem c7_send_input_guard_noop_witness :
    (initState.is_running = false ∨ initState.master_fd = none ∨ "hello" = "") ∧
    send_input ⟨none⟩ initState "hello" = (initState, []) :=
  ⟨Or.inl rfl, c7_send_input_guard_noop ⟨none⟩ initState "hello" (Or.inl rfl)⟩

/-- C8: on the successful path of run_command the trace places
setNonBlocking on the master immediately after the pty allocation, then
clearEcho on the slave, and only afterwards the spawn of the child: the
whole trace is literally the header and previous-session stop events
followed by openPty, setNonBlocking, clearEcho, spawnProc, timerStart. -/
theorem c8_nonblocking_and_echo_off_before_spawn (env : RunEnv) (s : TermState)
    (command : String) (args : List String) (cwd : Option String)
    (m sl : Nat) (p : Proc) (ha : env.alloc = some (m, sl))
    (hs : env.spawnRes = some p) :
    (run_command env s command args cwd).2 =
      ([Event.clearTerminal,
        Event.appendText ("$ " ++ cmdString command args ++ "\n") false] ++
        (stop_process env.stopEnv s).2) ++
      [Event.openPty m sl, Event.setNonBlocking m, Event.clearEcho sl,
       Event.spawnProc (command :: args) cwd, Event.timerStart 50] := by
  simp [run_command, ha, hs]

/-- C8 witness: the theorem applied to a concrete successful start from the
idle widget state. -/
theorem c8_nonblocking_and_echo_off_before_spawn_witness :
    spawnOkEnv.alloc = some (5, 6) ∧
    spawnOkEnv.spawnRes = some { pid := 42, pgid := 42 } ∧
    (run_command spawnOkEnv initState "python3" ["demo.py"] (some "/work")).2 =
      ([Event.clearTerminal,
        Event.appendText ("$ " ++ cmdString "python3" ["demo.py"] ++ "\n") false] ++
        (stop_process spawnOkEnv.stopEnv initState).2) ++
      [Event.openPty 5 6, Event.setNonBlocking 5, Event.clearEcho 6,
       Event.spawnProc ("python3" :: ["demo.py"]) (some "/work"),
       Event.timerStart 50] :=
  ⟨rfl, rfl,
   c8_nonblocking_and_echo_off_before_spawn spawnOkEnv initState "python3"
     ["demo.py"] (some "/work") 5 6 { pid := 42, pgid := 42 } rfl rfl⟩

/-- C9: when stop_process finds the child alive it signals exactly the
process group of the child (killpg on getpgid, not a single-process kill),
the outcome is identical whether or not the signalling raised a
process-already-gone error (the except clause absorbs it), and the cleanup
still completes: running flag cleared and processFinished emitted once. -/
theorem c9_stop_signals_group_ignores_gone (s : TermState) (p : Proc)
    (raised other : Bool) (hp : s.process = some p) :
    killTargets (stop_process { childAlive := true, killRaised := raised } s).2 =
      [p.pgid] ∧
    stop_process { childAlive := true, killRaised := raised } s =
      stop_process { childAlive := true, killRaised := other } s ∧
    (stop_process { childAlive := true, killRaised := raised } s).1.is_running =
      false ∧
    countEmits (stop_process { childAlive := true, killRaised := raised } s).2 = 1 :=
  ⟨stop_killTargets_alive _ s p hp rfl, rfl, rfl, stop_emits_once _ s⟩

/-- C9 witness: the theorem applied to the representative running session,
comparing a raising and a non-raising kill. -/
theorem c9_stop_signals_group_ignores_gone_witness :
    runningState.process = some { pid := 100, pgid := 100 } ∧
    (killTargets (stop_process { childAlive := true, killRaised := true }
        runningState).2 = [100] ∧
    stop_process { childAlive := true, killRaised := true } runningState =
      stop_process { childAlive := true, killRaised := false } runningState ∧
    (stop_process { childAlive := true, killRaised := true }
        runningState).1.is_running = false ∧
    countEmits (stop_process { childAlive := true, killRaised := true }
        runningState).2 = 1) :=
  ⟨rfl, c9_stop_signals_group_ignores_gone runningState { pid := 100, pgid := 100 }
    true false rfl⟩

/-- C10: when run_command allocates a new pty pair, the full stop of the
previous session comes first in the trace: the trace is the header plus the
complete stop_process trace and only then openPty and the rest; that stop
closes exactly the previously open descriptors, hands run_command a state
with both descriptors cleared before allocation, and signals the previous
process group when its child is still alive. -/
theorem c10_restart_stops_previous_before_alloc (env : RunEnv) (s : TermState)
    (command : String) (args : List String) (cwd : Option String) (m sl : Nat)
    (ha : env.alloc = some (m, sl)) :
    (∃ post,
      (run_command env s command args cwd).2 =
        ([Event.clearTerminal,
          Event.appendText ("$ " ++ cmdString command args ++ "\n") false] ++
          (stop_process env.stopEnv s).2) ++ (Event.openPty m sl :: post)) ∧
    closedFds (stop_process env.stopEnv s).2 =
      s.master_fd.toList ++ s.slave_fd.toList ∧
    (stop_process env.stopEnv s).1.master_fd = none ∧
    (stop_process env.stopEnv s).1.slave_fd = none ∧
    (∀ p, s.process = some p → env.stopEnv.childAlive = true →
      killTargets (stop_process env.stopEnv s).2 = [p.pgid]) := by
  refine ⟨?_, stop_closedFds env.stopEnv s, rfl, rfl,
    fun p hp halive => stop_killTargets_alive env.stopEnv s p hp halive⟩
  cases hs : env.spawnRes with
  | none =>
      exact ⟨[Event.setNonBlocking m, Event.clearEcho sl,
              Event.appendText ("Error starting process: " ++ env.errMsg ++ "\n")
                false, Event.emitFinished],
             by simp [run_command, ha, hs]⟩
  | some p =>
      exact ⟨[Event.setNonBlocking m, Event.clearEcho sl,
              Event.spawnProc (command :: args) cwd, Event.timerStart 50],
             by simp [run_command, ha, hs]⟩

/-- C10 witness: the theorem applied to a restart issued while the previous
child (group 100) is still alive. -/
theorem c10_restart_stops_previous_before_alloc_witness :
    restartEnv.alloc = some (7, 8) ∧
    ((∃ post,
      (run_command restartEnv runningState "python3" ["other.py"] none).2 =
        ([Event.clearTerminal,
          Event.appendText ("$ " ++ cmdString "python3" ["other.py"] ++ "\n") false] ++
          (stop_process restartEnv.stopEnv runningState).2) ++
          (Event.openPty 7 8 :: post)) ∧
    closedFds (stop_process restartEnv.stopEnv runningState).2 =
      runningState.master_fd.toList ++ runningState.slave_fd.toList ∧
    (stop_process restartEnv.stopEnv runningState).1.master_fd = none ∧
    (stop_process restartEnv.stopEnv runningState).1.slave_fd = none ∧
    (∀ p, runningState.process = some p →
      restartEnv.stopEnv.childAlive = true →
      killTargets (stop_process restartEnv.stopEnv runningState).2 = [p.pgid])) :=
  ⟨rfl,
   c10_restart_stops_previous_before_alloc restartEnv runningState "python3"
     ["other.py"] none 7 8 rfl⟩

end ScriptLauncher
